import Mathlib

/-!
Shallow embedding of the BPM-Monitoring-App sources
(BPMMonitoringApp.py and BPMWithGUI.py) and proofs about them.

Payload bytes are modelled as natural numbers below 256; a notification
payload is a list of bytes.  Python partial indexing (data[1], which
raises IndexError on a payload shorter than 2 bytes) is modelled with
Option: none stands for the raised exception.
-/

/-- The notification callback of BPMMonitoringApp.heartRateCallback:
the whole decode step is the single line heartRate = data[1].  The flags
byte (byte 0) is never inspected; accessing index 1 of a shorter payload
raises IndexError, modelled as none. -/
def heartRateCallback (data : List Nat) : Option Nat :=
  data[1]?

/-- The notification callback of BPMWithGUI.heart_rate_callback:
identical decode step, heart_rate = data[1]. -/
def heart_rate_callback (data : List Nat) : Option Nat :=
  data[1]?

/-- The 16-bit little-endian value formed from a low byte and a high
byte, as used by the Heart Rate Measurement characteristic when flags
bit 0 is set.  Vocabulary needed to state the decoding claims. -/
def littleEndianU16 (lo hi : Nat) : Nat :=
  lo + 256 * hi

/-- One append to a Python collections.deque with a maxlen bound,
holding its elements oldest first: the new element is placed at the
right and elements beyond maxlen are discarded from the left.  Both
sources use deque(..., maxlen=50) for HeartRateValues and mutate it
only through append. -/
def dequeAppend (maxlen : Nat) (q : List Nat) (x : Nat) : List Nat :=
  (q ++ [x]).drop (q.length + 1 - maxlen)

/-- The HeartRateValues buffer as constructed by both sources:
deque of fifty zeroes with maxlen fifty. -/
def initialHeartRateValues : List Nat :=
  List.replicate 50 0

/-- The sample sequence 1 to 55 of the end-to-end buffer scenario. -/
def oneTo55 : List Nat :=
  (List.range 55).map (fun i => i + 1)

/-- Handling of one notification while streaming, in either source: the
callback decodes data at index 1 and appends the value to the
HeartRateValues deque.  A payload shorter than two bytes makes the index
raise, so no value is appended; none records that the exception leaves
the callback unhandled, with no error event of any kind produced by the
code. -/
def notifyStep (buf data : List Nat) : Option (List Nat) :=
  (heart_rate_callback data).map (dequeAppend 50 buf)

/-- Externally determined outcome of one connection attempt by the BLE
client: the attempt raises an exception somewhere in the connect,
subscribe or streaming code; or the client reports not connected so the
body is skipped and the coroutine returns; or the device streams
notifications indefinitely. -/
inductive AttemptOutcome
  | raisesExc
  | notConnected
  | streams
deriving DecidableEq

/-- Observable step of a monitoring session: the warning print of the
exception handler, an asyncio sleep of the given number of seconds, the
connected print, or an exception escaping the coroutine and killing the
BLE thread. -/
inductive SessionEvent
  | errorPrinted
  | sleepSecs (n : Nat)
  | connectedPrinted
  | threadException
deriving DecidableEq

/-- How a monitoring session stands after the modelled attempts: stuck
streaming in the keep-alive loop, the coroutine returned quietly, the
thread died on an unhandled exception, or every modelled attempt failed
and the session is still waiting to try again. -/
inductive SessionEnd
  | streaming
  | returnedSilently
  | crashed
  | awaitingAttempt
deriving DecidableEq

/-- BPMWithGUI connect_and_monitor, one recursion step per attempt: the
try block connects and, on success, streams forever; any exception is
caught by the handler, which prints a warning, sleeps five seconds and
re-invokes connect_and_monitor recursively, with no attempt counter and
no cap.  When is_connected is false the body is skipped and the
coroutine returns, ending the thread. -/
def connect_and_monitor : List AttemptOutcome → List SessionEvent × SessionEnd
  | [] => ([], SessionEnd.awaitingAttempt)
  | AttemptOutcome.streams :: _ =>
      ([SessionEvent.connectedPrinted], SessionEnd.streaming)
  | AttemptOutcome.notConnected :: _ => ([], SessionEnd.returnedSilently)
  | AttemptOutcome.raisesExc :: rest =>
      let r := connect_and_monitor rest
      (SessionEvent.errorPrinted :: SessionEvent.sleepSecs 5 :: r.1, r.2)

/-- BPMMonitoringApp.getHeartRate makes exactly one attempt with no
try-except: an exception propagates out of run_until_complete and kills
the BLE thread; there is no retry path, no sleep and no handler. -/
def getHeartRate : AttemptOutcome → List SessionEvent × SessionEnd
  | AttemptOutcome.streams =>
      ([SessionEvent.connectedPrinted], SessionEnd.streaming)
  | AttemptOutcome.notConnected => ([], SessionEnd.returnedSilently)
  | AttemptOutcome.raisesExc =>
      ([SessionEvent.threadException], SessionEnd.crashed)

/-- A discovered BLE peripheral as both sources use it: an optional
advertised name and an address string. -/
structure Peripheral where
  name : Option String
  address : String
deriving DecidableEq

/-- The entry shown for one device, name (or Unknown) then the address,
as printed by scanDevices and inserted into the listbox by
_scan_devices. -/
def displayEntry (d : Peripheral) : String :=
  d.name.getD ("Unknown") ++ " - " ++ d.address

/-- Outcome of a completed scan: whether the no-devices error message
was reported to the operator, and the device entries listed. -/
structure ScanOutcome where
  errorReported : Bool
  listed : List String
deriving DecidableEq

/-- BPMMonitoringApp.scanDevices after discovery completes: with no
devices it prints the no-devices error message and returns early,
listing nothing; otherwise it prints one entry per device. -/
def scanDevices (discovered : List Peripheral) : ScanOutcome :=
  if discovered.isEmpty then { errorReported := true, listed := [] }
  else { errorReported := false, listed := discovered.map displayEntry }

/-- BPMWithGUI _scan_devices after discovery completes: with no devices
it shows an error dialog via messagebox.showerror and returns, listing
nothing; otherwise it fills the listbox with one entry per device. -/
def scan_devices_gui (discovered : List Peripheral) : ScanOutcome :=
  if discovered.isEmpty then { errorReported := true, listed := [] }
  else { errorReported := false, listed := discovered.map displayEntry }

/-- The first peripheral of the end-to-end scenario in the spec. -/
def hrm1 : Peripheral :=
  { name := some ("HRM-1"), address := "AA:BB" }

theorem dequeAppend_length (maxlen : Nat) (q : List Nat) (x : Nat) :
    (dequeAppend maxlen q x).length = min (q.length + 1) maxlen := by
  simp only [dequeAppend, List.length_drop, List.length_append,
    List.length_cons, List.length_nil]
  omega

/-- Folding dequeAppend over a list of samples keeps exactly the last
maxlen elements of the initial contents followed by the samples. -/
theorem foldl_dequeAppend (maxlen : Nat) (xs : List Nat) :
    ∀ q : List Nat, q.length ≤ maxlen →
      List.foldl (dequeAppend maxlen) q xs
        = (q ++ xs).drop (q.length + xs.length - maxlen) := by
  induction xs with
  | nil =>
      intro q hq
      simp [Nat.sub_eq_zero_of_le hq]
  | cons x t ih =>
      intro q hq
      have hlen : (dequeAppend maxlen q x).length = min (q.length + 1) maxlen :=
        dequeAppend_length maxlen q x
      have hle : (dequeAppend maxlen q x).length ≤ maxlen := by omega
      have hstep := ih (dequeAppend maxlen q x) hle
      have hdec : dequeAppend maxlen q x
          = (q ++ [x]).drop (q.length + 1 - maxlen) := rfl
      rw [List.foldl_cons, hstep, hlen, hdec]
      have hdle : q.length + 1 - maxlen ≤ (q ++ [x]).length := by
        simp only [List.length_append, List.length_cons, List.length_nil]
        omega
      have hsplit : ((q ++ [x]).drop (q.length + 1 - maxlen)) ++ t
          = ((q ++ [x]) ++ t).drop (q.length + 1 - maxlen) := by
        nth_rewrite 2 [List.drop_append_eq_append_drop]
        rw [Nat.sub_eq_zero_of_le hdle, List.drop_zero]
      rw [hsplit, List.drop_drop]
      have harith : q.length + 1 - maxlen
            + (min (q.length + 1) maxlen + t.length - maxlen)
          = q.length + (x :: t).length - maxlen := by
        simp only [List.length_cons]
        omega
      rw [harith, List.append_assoc]
      rfl

/-- Claim C1: on the three-byte payload with flags byte 1 (bit 0 set)
and value bytes 40 and 1, the claimed bpm is the little-endian 16-bit
value 296, but both callbacks read only the byte at offset 1 and yield
40: the high byte is ignored. -/
theorem decode_ignores_high_byte :
    Nat.testBit 1 0 = true ∧
    heartRateCallback [1, 40, 1] = some 40 ∧
    heart_rate_callback [1, 40, 1] = some 40 ∧
    littleEndianU16 40 1 = 296 ∧ (40 : Nat) ≠ 296 := by
  decide

/-- Claim C2: for every two-byte payload whose flags byte has bit 0
clear, both callbacks yield the unsigned byte at offset 1 as the bpm. -/
theorem decode_8bit (b0 b1 : Nat) (h0 : b0 < 256) (h1 : b1 < 256)
    (hflag : Nat.testBit b0 0 = false) :
    heartRateCallback [b0, b1] = some b1 ∧
    heart_rate_callback [b0, b1] = some b1 :=
  ⟨rfl, rfl⟩

/-- Witness for claim C2 at the payload with flags 0 and value byte 60. -/
theorem decode_8bit_witness :
    heartRateCallback [0, 60] = some 60 ∧
    heart_rate_callback [0, 60] = some 60 :=
  decode_8bit 0 60 (by decide) (by decide) (by decide)

/-- Claim C3: on a payload with fewer than two bytes the byte access at
offset 1 is out of range, modelling the IndexError that data index 1
raises in both callbacks; no sample is produced, and no DecodeError or
TooShort value exists anywhere in the code. -/
theorem decode_short_payload_raises :
    heartRateCallback [] = none ∧ heartRateCallback [5] = none ∧
    heart_rate_callback [] = none ∧ heart_rate_callback [5] = none := by
  decide

/-- Claim C4: the callbacks return the bare integer at offset 1 and
never inspect flags bits 1 and 2, so no contact-detected information is
computed: a payload advertising sensor contact (flags 6) decodes to the
same bare value as one advertising none (flags 0). -/
theorem decode_discards_contact_flags :
    heartRateCallback [6, 70] = some 70 ∧
    heartRateCallback [0, 70] = some 70 ∧
    heart_rate_callback [6, 70] = heart_rate_callback [0, 70] := by
  decide

/-- Claim C5: appending N plus k samples (k at least 0) to a buffer of
capacity N whose initial contents fit the capacity leaves a snapshot of
length min (N + k) N that equals exactly the last N appended samples in
append order. -/
theorem snapshot_keeps_last_capacity (N k : Nat) (init xs : List Nat)
    (hinit : init.length ≤ N) (hxs : xs.length = N + k) :
    (List.foldl (dequeAppend N) init xs).length = min (N + k) N ∧
    List.foldl (dequeAppend N) init xs = xs.drop k := by
  have hfold := foldl_dequeAppend N xs init hinit
  have h1 : init.length + xs.length - N = init.length + k := by omega
  rw [hfold, h1, List.drop_append]
  refine ⟨?_, rfl⟩
  rw [List.length_drop]
  omega

/-- Witness for claim C5: the end-to-end scenario of samples 1 to 55
appended to the capacity-50 buffer, whose snapshot is 6 to 55. -/
theorem snapshot_keeps_last_capacity_witness :
    ((List.foldl (dequeAppend 50) initialHeartRateValues oneTo55).length
        = min (50 + 5) 50 ∧
      List.foldl (dequeAppend 50) initialHeartRateValues oneTo55
        = oneTo55.drop 5) ∧
    oneTo55.drop 5
      = [6, 7, 8, 9, 10, 11, 12, 13, 14, 15, 16, 17, 18, 19, 20, 21, 22,
         23, 24, 25, 26, 27, 28, 29, 30, 31, 32, 33, 34, 35, 36, 37, 38,
         39, 40, 41, 42, 43, 44, 45, 46, 47, 48, 49, 50, 51, 52, 53, 54,
         55] :=
  ⟨snapshot_keeps_last_capacity 50 5 initialHeartRateValues oneTo55
      (by decide) (by decide), by decide⟩

/-- Claim C6: one dequeAppend on a buffer of positive capacity N whose
length is at most N keeps the length at most N; when the buffer is at
capacity the oldest (leftmost) element is evicted, and below capacity
nothing is evicted. -/
theorem dequeAppend_capacity_invariant (N : Nat) (q : List Nat) (x : Nat)
    (hN : 0 < N) (hq : q.length ≤ N) :
    (dequeAppend N q x).length ≤ N ∧
    (q.length = N → dequeAppend N q x = q.tail ++ [x]) ∧
    (q.length < N → dequeAppend N q x = q ++ [x]) := by
  refine ⟨?_, ?_, ?_⟩
  · rw [dequeAppend_length]
    omega
  · intro hfull
    have h1 : q.length + 1 - N = 1 := by omega
    rw [dequeAppend, h1, List.drop_append_eq_append_drop,
      Nat.sub_eq_zero_of_le (by omega), List.drop_zero, List.drop_one]
  · intro hlt
    have h0 : q.length + 1 - N = 0 := by omega
    rw [dequeAppend, h0, List.drop_zero]

/-- Witness for claim C6 on a capacity-2 buffer at capacity. -/
theorem dequeAppend_capacity_invariant_witness :
    (dequeAppend 2 [7, 8] 9).length ≤ 2 ∧
    dequeAppend 2 [7, 8] 9 = [7, 8].tail ++ [9] := by
  have h := dequeAppend_capacity_invariant 2 [7, 8] 9 (by decide) (by decide)
  exact ⟨h.1, h.2.1 (by decide)⟩

/-- Claim C10: the buffer both sources construct is prefilled with 50
zeroes under maxlen 50, so after any sequence of appends the snapshot
has length exactly 50, and after at most 50 appends the positions not
yet overwritten still hold 0 in front of the appended samples. -/
theorem buffer_prefilled_with_zeroes (xs : List Nat) :
    (List.foldl (dequeAppend 50) initialHeartRateValues xs).length = 50 ∧
    (xs.length ≤ 50 →
      List.foldl (dequeAppend 50) initialHeartRateValues xs
        = List.replicate (50 - xs.length) 0 ++ xs) := by
  have hinit : initialHeartRateValues.length ≤ 50 := by
    simp [initialHeartRateValues]
  have hlen : initialHeartRateValues.length = 50 := by
    simp [initialHeartRateValues]
  have hfold := foldl_dequeAppend 50 xs initialHeartRateValues hinit
  constructor
  · rw [hfold, List.length_drop, List.length_append, hlen]
    omega
  · intro hle
    rw [hfold, hlen]
    have h1 : 50 + xs.length - 50 = xs.length := by omega
    rw [h1, List.drop_append_eq_append_drop]
    simp only [initialHeartRateValues, List.drop_replicate,
      List.length_replicate]
    rw [Nat.sub_eq_zero_of_le hle, List.drop_zero]

/-- Witness for claim C10 after three appends to the fresh buffer. -/
theorem buffer_prefilled_with_zeroes_witness :
    (List.foldl (dequeAppend 50) initialHeartRateValues
        [70, 71, 72]).length = 50 ∧
    List.foldl (dequeAppend 50) initialHeartRateValues [70, 71, 72]
      = List.replicate (50 - [70, 71, 72].length) 0 ++ [70, 71, 72] :=
  ⟨(buffer_prefilled_with_zeroes [70, 71, 72]).1,
    (buffer_prefilled_with_zeroes [70, 71, 72]).2 (by decide)⟩

/-- Claim C7 (counterexample): in BPMMonitoringApp a failing connection
attempt kills the monitoring thread: the session ends crashed, there is
no five-second sleep and no retry, so a connect failure is terminal
rather than retried. -/
theorem cli_connect_failure_terminal :
    getHeartRate AttemptOutcome.raisesExc
      = ([SessionEvent.threadException], SessionEnd.crashed) ∧
    SessionEvent.sleepSecs 5 ∉ (getHeartRate AttemptOutcome.raisesExc).1 ∧
    (getHeartRate AttemptOutcome.raisesExc).2 ≠ SessionEnd.streaming := by
  decide

/-- Claim C7 (amended): in BPMWithGUI every failing attempt is caught,
printed as a warning and retried after a five-second sleep, for any
number of consecutive failures, with no cap and no terminal failure:
n failures followed by a successful attempt end streaming, and n
failures alone leave the session still awaiting its next attempt. -/
theorem gui_retries_every_failure (n : Nat) :
    connect_and_monitor
        (List.replicate n AttemptOutcome.raisesExc
          ++ [AttemptOutcome.streams])
      = ((List.replicate n
            [SessionEvent.errorPrinted, SessionEvent.sleepSecs 5]).flatten
          ++ [SessionEvent.connectedPrinted], SessionEnd.streaming) ∧
    connect_and_monitor (List.replicate n AttemptOutcome.raisesExc)
      = ((List.replicate n
            [SessionEvent.errorPrinted, SessionEvent.sleepSecs 5]).flatten,
         SessionEnd.awaitingAttempt) := by
  induction n with
  | zero => constructor <;> rfl
  | succ k ih =>
      constructor
      · simp only [List.replicate_succ, List.cons_append, List.append_eq,
          connect_and_monitor, List.flatten_cons, ih.1, List.append_assoc,
          List.nil_append]
      · simp only [List.replicate_succ, List.append_eq,
          connect_and_monitor, List.flatten_cons, ih.2, List.cons_append,
          List.nil_append]

/-- Claim C8: while streaming, a well-formed notification appends its
decoded value to the buffer, but a too-short notification makes the
callback raise with nothing appended: the step yields none, and the code
offers no non-fatal error report for it. -/
theorem streaming_decode_failure_unhandled :
    notifyStep initialHeartRateValues [] = none ∧
    notifyStep initialHeartRateValues [0, 60]
      = some (dequeAppend 50 initialHeartRateValues 60) :=
  ⟨rfl, rfl⟩

/-- Claim C9 (counterexample): a scan that completes with no discovered
peripherals reports an error to the operator in both sources: the CLI
prints the no-devices error message, the GUI shows an error dialog. -/
theorem empty_scan_reports_error :
    (scanDevices []).errorReported = true ∧
    (scan_devices_gui []).errorReported = true :=
  ⟨rfl, rfl⟩

/-- Claim C9 (amended): a completed scan never raises: with no devices
it returns normally, listing nothing, but reports an error to the
operator; with at least one device it lists every device, in discovery
order, without reporting an error. -/
theorem scan_outcome (ds : List Peripheral) :
    (ds = [] → scanDevices ds = { errorReported := true, listed := [] } ∧
      scan_devices_gui ds = { errorReported := true, listed := [] }) ∧
    (ds ≠ [] → (scanDevices ds).errorReported = false ∧
      (scanDevices ds).listed = ds.map displayEntry ∧
      scan_devices_gui ds = scanDevices ds) := by
  constructor
  · intro h
    subst h
    exact ⟨rfl, rfl⟩
  · intro h
    have hne : ds.isEmpty = false := by
      cases ds with
      | nil => exact absurd rfl h
      | cons a t => rfl
    refine ⟨?_, ?_, ?_⟩
    · simp [scanDevices, hne]
    · simp [scanDevices, hne]
    · simp [scanDevices, scan_devices_gui, hne]

/-- Witness for claim C9 with one discovered peripheral. -/
theorem scan_outcome_witness :
    (scanDevices [hrm1]).errorReported = false ∧
    (scanDevices [hrm1]).listed = [hrm1].map displayEntry ∧
    scan_devices_gui [hrm1] = scanDevices [hrm1] :=
  (scan_outcome [hrm1]).2 (by decide)
